import Mathlib

/-!
Shallow embedding of the trading-agent core of the `fr-icm` repository
(`src/agent/strategy.rs`, `src/agent/executor.rs`, `src/agent/observer.rs`,
`src/agent/planner.rs`, `src/agent/trading_agent.rs`).

Modelling conventions:
* `f64` values are modelled as exact rationals `ℚ`.
* Unsigned machine integers (`u8`/`u16`/`u64`) are modelled as `ℕ`, with an
  explicit `% 2^w` wherever the source arithmetic can wrap.
* `DateTime<Utc>` instants are modelled as `Int` milliseconds since epoch.
* Nondeterministic inputs of the source (current time, fresh UUIDs, the
  random priority-fee jitter draw, chain-submission outcomes, measured
  elapsed time) are threaded as explicit environment parameters.
* The `agent::types` module is declared in `src/agent/mod.rs` but its file
  is not present under `src/`; its data types are modelled from the spec's
  data model (section 3), with fields as used by the present source files.
-/

/-- Semantics of a Rust `as u16` cast applied to an `f64` value: truncation
toward zero with saturation to the target range (negative values saturate
to 0, so the result coincides with a clamped floor). -/
def f64AsU16 (x : ℚ) : ℕ := (min 65535 ⌊x⌋).toNat

/-- Semantics of a Rust `as u8` cast applied to an `f64` value. -/
def f64AsU8 (x : ℚ) : ℕ := (min 255 ⌊x⌋).toNat

/-- Semantics of a Rust `as u64` cast applied to an `f64` value. -/
def f64AsU64 (x : ℚ) : ℕ := (min (2 ^ 64 - 1) ⌊x⌋).toNat

/-- Rust `f64::clamp(lo, hi)` on exact rationals. -/
def ratClamp (x lo hi : ℚ) : ℚ := max lo (min hi x)

/-- The wrap modulus of `u64` arithmetic. -/
def W64 : ℕ := 2 ^ 64

/-- Rendering of an `f64` with two decimal places, as Rust's `{:.2}` format
specifier does.  The model rounds half upward on the exact rational value;
the source rounds the underlying binary double, which can differ only on
exact decimal ties (which no claim exercises). -/
def fmt2 (x : ℚ) : String :=
  let n : Int := ⌊x * 100 + 1 / 2⌋
  let m : ℕ := n.natAbs
  let sign : String := if n < 0 then "-" else ""
  let frac : ℕ := m % 100
  sign ++ toString (m / 100) ++ "." ++ (if frac < 10 then "0" else "") ++ toString frac

/-- Modelled from the spec: trend tag of the market conditions (spec section 3,
Market Conditions); the `agent::types` source file is missing from `src/`. -/
inductive PriceTrend
  | bullish
  | bearish
  | sideways
deriving DecidableEq

/-- Modelled from the spec: a Quote, the snapshot of a proposed swap along one
directed pair (spec section 3).  Token identifiers are kept in their canonical
string encoding; the route plan is an opaque byte blob. -/
structure QuoteData where
  input_mint : String
  output_mint : String
  input_amount : ℕ
  output_amount : ℕ
  slippage_bps : ℕ
  platform_fee_bps : ℕ
  price_impact_pct : ℚ
  route_plan : List ℕ
  timestamp : Int
deriving DecidableEq

/-- Modelled from the spec: derived market conditions (spec section 3). -/
structure MarketConditions where
  volatility_24h : ℚ
  volume_24h : ℚ
  price_trend : PriceTrend
  liquidity_score : ℚ
deriving DecidableEq

/-- Modelled from the spec: a position held by a bucket (spec section 3). -/
structure Position where
  bucket_pubkey : String
  token_mint : String
  amount : ℕ
  entry_price : ℚ
  current_price : ℚ
  unrealized_pnl : ℚ
  opened_at : Int
deriving DecidableEq

/-- Modelled from the spec: the strategy tag (spec section 3, Strategy Config). -/
inductive StrategyType
  | arbitrage
  | gridTrading
  | dca
  | meanReversion
  | trendFollowing
deriving DecidableEq

/-- Modelled from the spec: strategy parameters (spec section 3). -/
structure StrategyParameters where
  min_spread_bps : ℕ
  max_slippage_bps : ℕ
  position_size_usd : ℚ
  rebalance_threshold_pct : ℚ
  lookback_periods : ℕ
  custom_params : List (String × ℚ)
deriving DecidableEq

/-- Modelled from the spec: risk limits (spec section 3). -/
structure RiskLimits where
  max_position_size_usd : ℚ
  max_daily_loss_pct : ℚ
  max_drawdown_pct : ℚ
  stop_loss_pct : ℚ
  take_profit_pct : ℚ
deriving DecidableEq

/-- Modelled from the spec: execution settings (spec section 3). -/
structure ExecutionSettings where
  priority_fee_percentile : ℕ
  max_priority_fee_lamports : ℕ
  transaction_timeout_ms : ℕ
  retry_attempts : ℕ
  jito_tip_lamports : ℕ
deriving DecidableEq

/-- Modelled from the spec: a strategy configuration tuple (spec section 3). -/
structure StrategyConfig where
  strategy_type : StrategyType
  parameters : StrategyParameters
  risk_limits : RiskLimits
  execution_settings : ExecutionSettings
deriving DecidableEq

/-- Modelled from the spec: risk assessment carried in a plan's execution
context (spec section 3, Plan). -/
structure RiskAssessment where
  risk_score : ℚ
  max_loss_estimate : ℚ
  position_risk_pct : ℚ
  market_risk_factors : List String
deriving DecidableEq

/-- Modelled from the spec: the execution context justifying a plan. -/
structure ExecutionContext where
  market_conditions : MarketConditions
  risk_assessment : RiskAssessment
  ai_reasoning : String
deriving DecidableEq

/-- Modelled from the spec: an executable trading Plan (spec section 3). -/
structure TradingPlan where
  id : ℕ
  strategy_type : StrategyType
  bucket_pubkey : String
  input_mint : String
  output_mint : String
  input_amount : ℕ
  min_output_amount : ℕ
  max_slippage_bps : ℕ
  priority_fee : ℕ
  route_plan : List ℕ
  confidence_score : ℚ
  created_at : Int
  expires_at : Int
  execution_context : ExecutionContext
deriving DecidableEq

/-- Modelled from the spec: the error kinds raised by the agent core (spec
section 7); the display text of an error is its carried message. -/
inductive AgentError
  | configuration (msg : String)
  | riskLimitExceeded (msg : String)
  | transactionFailed (msg : String)
deriving DecidableEq

/-- Display text of an error (spec section 7: failures carry their message). -/
def AgentError.toMessage : AgentError → String
  | .configuration m => m
  | .riskLimitExceeded m => m
  | .transactionFailed m => m

/-- Environment of one plan-producing evaluation: the current instant, a fresh
plan id standing for `uuid::Uuid::new_v4()`, and the random jitter draw used
by the priority-fee computation. -/
structure PlanEnv where
  now : Int
  freshId : ℕ
  rngDraw : ℕ
deriving DecidableEq

/-- Embedding of `ArbitrageStrategy::calculate_effective_spread`
(`src/agent/strategy.rs` lines 97-115).  The `u16` additions wrap modulo
`2^16`; `saturating_sub` is natural subtraction. -/
def ArbitrageStrategy.calculateEffectiveSpread (quote : QuoteData) : ℕ :=
  if quote.input_amount = 0 ∨ quote.output_amount = 0 then 0
  else
    let price_impact_bps := f64AsU16 (quote.price_impact_pct * 100)
    let total_fees_bps := (quote.slippage_bps + quote.platform_fee_bps + price_impact_bps) % 65536
    let raw_spread := f64AsU16 (((quote.output_amount : ℚ) / (quote.input_amount : ℚ) - 1) * 10000)
    raw_spread - total_fees_bps

/-- Embedding of `ArbitrageStrategy::check_market_conditions`
(`src/agent/strategy.rs` lines 117-135). -/
def ArbitrageStrategy.checkMarketConditions (conditions : MarketConditions) : Bool :=
  if conditions.volatility_24h > 15 / 100 then false
  else if conditions.liquidity_score < 3 / 10 then false
  else true

/-- Total value of the currently held positions, as summed by
`ArbitrageStrategy::check_risk_limits` (`src/agent/strategy.rs` lines 142-144).
The source's `HashMap` of positions is modelled as an association list. -/
def totalPositionValue (positions : List (String × Position)) : ℚ :=
  (positions.map fun p => (p.2.amount : ℚ) * p.2.current_price).sum

/-- Embedding of `ArbitrageStrategy::calculate_confidence`
(`src/agent/strategy.rs` lines 213-219). -/
def ArbitrageStrategy.calculateConfidence (spread_bps : ℕ) (config : StrategyConfig) : ℚ :=
  let min_spread : ℚ := (config.parameters.min_spread_bps : ℚ)
  let spread_ratio := (spread_bps : ℚ) / min_spread
  min (1 / 2 + (spread_ratio - 1) * (2 / 10)) (9 / 10)

/-- Embedding of `ArbitrageStrategy::calculate_priority_fee`
(`src/agent/strategy.rs` lines 221-226): the base fee plus a random draw
reduced modulo a 10% jitter, where `env.rngDraw` stands for the
`rand::random` draw.  The jitter `(base_fee as f64 * 0.1) as u64` is zero
whenever `max_priority_fee_lamports < 10`, and the source's `% 0` then
panics unconditionally; the model returns `none` on that panic path. -/
def ArbitrageStrategy.calculatePriorityFee (settings : ExecutionSettings) (env : PlanEnv) :
    Option ℕ :=
  let base_fee := settings.max_priority_fee_lamports
  let jitter := f64AsU64 ((base_fee : ℚ) * (1 / 10))
  if jitter = 0 then none
  else some (base_fee + env.rngDraw % jitter)

/-- Embedding of `ArbitrageStrategy::create_trading_plan`
(`src/agent/strategy.rs` lines 158-211).  Mint strings are the spec's
canonical token identifiers, so the external base58 parse succeeds; the
bincode round-trip on the opaque route-plan blob is the identity (spec
section 8, round-trip property).  Returns `none` when the priority-fee
computation hits its modulo-by-zero panic. -/
def ArbitrageStrategy.createTradingPlan (quote : QuoteData) (config : StrategyConfig)
    (spread_bps : ℕ) (env : PlanEnv) : Option TradingPlan :=
  match ArbitrageStrategy.calculatePriorityFee config.execution_settings env with
  | none => none
  | some priority_fee =>
      let position_size := f64AsU64 (config.parameters.position_size_usd * 1000000)
      some
        { id := env.freshId
          strategy_type := .arbitrage
          bucket_pubkey := quote.input_mint
          input_mint := quote.input_mint
          output_mint := quote.output_mint
          input_amount := position_size
          min_output_amount := quote.output_amount
          max_slippage_bps := config.parameters.max_slippage_bps
          priority_fee := priority_fee
          route_plan := quote.route_plan
          confidence_score := ArbitrageStrategy.calculateConfidence spread_bps config
          created_at := env.now
          expires_at := env.now + 30000
          execution_context :=
            { market_conditions :=
                { volatility_24h := 0, volume_24h := 0, price_trend := .sideways, liquidity_score := 1 / 2 }
              risk_assessment :=
                { risk_score := 3 / 10
                  max_loss_estimate := (spread_bps : ℚ) * (position_size : ℚ) / 10000
                  position_risk_pct := 5
                  market_risk_factors := ["slippage", "timing"] }
              ai_reasoning := "Arbitrage opportunity with " ++ toString spread_bps ++ "bps spread" } }

/-- Outcome of one arbitrage evaluation: a value or error as the source's
`Result<Option<TradingPlan>, AgentError>`, or the unwinding of the
modulo-by-zero panic inside `calculate_priority_fee`. -/
inductive StrategyEvalOutcome
  | ok (plan : Option TradingPlan)
  | error (e : AgentError)
  | panicked
deriving DecidableEq

/-- Embedding of `ArbitrageStrategy::evaluate` (`src/agent/strategy.rs` lines
35-75): spread threshold, then market conditions, then risk limits (which
raise an error rather than returning `None`), then plan creation — which
panics (modulo by zero) when `max_priority_fee_lamports < 10`. -/
def ArbitrageStrategy.evaluate (quote : QuoteData) (market_conditions : MarketConditions)
    (current_positions : List (String × Position)) (config : StrategyConfig)
    (env : PlanEnv) : StrategyEvalOutcome :=
  let spread_bps := ArbitrageStrategy.calculateEffectiveSpread quote
  if spread_bps < config.parameters.min_spread_bps then .ok none
  else if ¬ ArbitrageStrategy.checkMarketConditions market_conditions then .ok none
  else if totalPositionValue current_positions > config.risk_limits.max_position_size_usd then
    .error (.riskLimitExceeded
      ("Total position $" ++ fmt2 (totalPositionValue current_positions) ++
        " exceeds limit $" ++ fmt2 config.risk_limits.max_position_size_usd))
  else
    match ArbitrageStrategy.createTradingPlan quote config spread_bps env with
    | some plan => .ok (some plan)
    | none => .panicked

/-- Embedding of `ArbitrageStrategy::validate_parameters`
(`src/agent/strategy.rs` lines 81-89). -/
def ArbitrageStrategy.validateParameters (params : StrategyParameters) :
    Except AgentError Unit :=
  if params.min_spread_bps < 10 then
    .error (.configuration "Minimum spread too low for arbitrage")
  else if params.max_slippage_bps > 500 then
    .error (.configuration "Maximum slippage too high")
  else .ok ()

/-- Embedding of `GridTradingStrategy::validate_parameters`
(`src/agent/strategy.rs` lines 268-273). -/
def GridTradingStrategy.validateParameters (params : StrategyParameters) :
    Except AgentError Unit :=
  if params.rebalance_threshold_pct < 1 / 100 ∨ params.rebalance_threshold_pct > 1 / 10 then
    .error (.configuration "Invalid rebalance threshold for grid trading")
  else .ok ()

/-- The `DCAStrategy` state (`src/agent/strategy.rs` lines 308-311): the
per-pair map of last plan-emission instants, modelled as an association
list.  No code path of the repository ever inserts into `last_execution`;
`evaluate` takes `&self` and `new` builds the empty map. -/
structure DCAStrategy where
  interval_hours : ℕ
  last_execution : List (String × Int)
deriving DecidableEq

/-- Embedding of `DCAStrategy::new` (`src/agent/strategy.rs` lines 346-351). -/
def DCAStrategy.new (interval_hours : ℕ) : DCAStrategy :=
  { interval_hours, last_execution := [] }

/-- Embedding of `DCAStrategy::create_dca_plan` (`src/agent/strategy.rs`
lines 353-396). -/
def DCAStrategy.createDcaPlan (quote : QuoteData) (config : StrategyConfig)
    (env : PlanEnv) : TradingPlan :=
  { id := env.freshId
    strategy_type := .dca
    bucket_pubkey := quote.input_mint
    input_mint := quote.input_mint
    output_mint := quote.output_mint
    input_amount := f64AsU64 (config.parameters.position_size_usd * 1000000)
    min_output_amount := f64AsU64 ((quote.output_amount : ℚ) * (95 / 100))
    max_slippage_bps := config.parameters.max_slippage_bps
    priority_fee := config.execution_settings.max_priority_fee_lamports / 2
    route_plan := quote.route_plan
    confidence_score := 8 / 10
    created_at := env.now
    expires_at := env.now + 3600000
    execution_context :=
      { market_conditions :=
          { volatility_24h := 0, volume_24h := 0, price_trend := .sideways, liquidity_score := 1 / 2 }
        risk_assessment :=
          { risk_score := 2 / 10
            max_loss_estimate := config.parameters.position_size_usd * (1 / 10)
            position_risk_pct := 2
            market_risk_factors := ["timing"] }
        ai_reasoning := "Regular DCA execution regardless of market conditions" } }

/-- Embedding of `DCAStrategy::evaluate` (`src/agent/strategy.rs` lines
314-334): emit unless the pair's entry in `last_execution` is younger than
`interval_hours`.  `num_hours` of a chrono duration is whole hours with
truncation toward zero, hence the `Int.div` chain on milliseconds. -/
def DCAStrategy.evaluate (self : DCAStrategy) (quote : QuoteData)
    (config : StrategyConfig) (env : PlanEnv) : Except AgentError (Option TradingPlan) :=
  let pair_key := quote.input_mint ++ "_" ++ quote.output_mint
  match self.last_execution.lookup pair_key with
  | some last_exec =>
      if Int.tdiv (Int.tdiv (env.now - last_exec) 1000) 3600 < (self.interval_hours : Int) then
        .ok none
      else .ok (some (DCAStrategy.createDcaPlan quote config env))
  | none => .ok (some (DCAStrategy.createDcaPlan quote config env))

/-- One value of the source's `Box<dyn Strategy>`: the tagged-variant
rendering of the three concrete strategy implementations
(`src/agent/strategy.rs`). -/
inductive StrategyInstance
  | arbitrage
  | gridTrading (grid_levels : ℕ) (grid_spacing_pct : ℚ)
  | dca (s : DCAStrategy)
deriving DecidableEq

/-- Embedding of `StrategyFactory::create_strategy` (`src/agent/strategy.rs`
lines 403-411): the reserved tags `MeanReversion` and `TrendFollowing` are
mapped to an `ArbitrageStrategy` ("Placeholder" in the source). -/
def StrategyFactory.createStrategy : StrategyType → StrategyInstance
  | .arbitrage => .arbitrage
  | .gridTrading => .gridTrading 10 (2 / 100)
  | .dca => .dca (DCAStrategy.new 24)
  | .meanReversion => .arbitrage
  | .trendFollowing => .arbitrage

/-- Dispatch of `Strategy::validate_parameters` over a created instance. -/
def StrategyInstance.validateParameters : StrategyInstance → StrategyParameters →
    Except AgentError Unit
  | .arbitrage, params => ArbitrageStrategy.validateParameters params
  | .gridTrading _ _, params => GridTradingStrategy.validateParameters params
  | .dca _, _ => .ok ()

/-- Embedding of `StrategyFactory::validate_strategy_config`
(`src/agent/strategy.rs` lines 413-416). -/
def StrategyFactory.validateStrategyConfig (config : StrategyConfig) :
    Except AgentError Unit :=
  (StrategyFactory.createStrategy config.strategy_type).validateParameters config.parameters

/-- Modelled from the spec: the opaque chain client's response to a successful
submission (spec section 6, chain client capability); the source's
`UnsignedTransactionResponse` carries the transaction payload. -/
structure UnsignedTransactionResponse where
  transaction : String
deriving DecidableEq

/-- Outcome of one chain submission attempt by `ExecutorHandle::execute_swap`
(`src/agent/executor.rs` lines 231-276).  The keypair loading, bucket lookup
and swap call are the spec's opaque `submit(plan) -> signature | error`
capability, so the whole attempt is one environment-supplied outcome. -/
inductive ChainOutcome
  | success (response : UnsignedTransactionResponse)
  | failure (e : AgentError)
deriving DecidableEq

/-- Modelled from the spec: an Execution Result (spec section 3). -/
structure ExecutionResult where
  plan_id : ℕ
  success : Bool
  transaction_signature : Option String
  execution_time_ms : ℕ
  actual_slippage_bps : Option ℕ
  error_message : Option String
  gas_used : Option ℕ
  timestamp : Int
deriving DecidableEq

/-- The executor's cumulative metrics (`src/agent/executor.rs` lines 47-55). -/
structure ExecutionMetrics where
  total_executions : ℕ
  successful_executions : ℕ
  failed_executions : ℕ
  avg_execution_time_ms : ℕ
  total_gas_used : ℕ
  last_execution : Option Int
deriving DecidableEq

/-- Embedding of `ExecutionMetrics::default` (derived `Default`). -/
def ExecutionMetrics.default : ExecutionMetrics :=
  { total_executions := 0, successful_executions := 0, failed_executions := 0
    avg_execution_time_ms := 0, total_gas_used := 0, last_execution := none }

/-- Environment of one `execute_plan` call: the instant of the expiry check,
the measured elapsed wall time at result creation, and the outcome the chain
client would give to the n-th submission attempt. -/
structure ExecEnv where
  now : Int
  elapsed_ms : ℕ
  chain : ℕ → ChainOutcome

/-- Embedding of `ExecutorHandle::send_failure_result`
(`src/agent/executor.rs` lines 386-403), the emitted result only (the
metrics update is modelled separately by `ExecutorHandle.updateMetrics`). -/
def ExecutorHandle.sendFailureResult (plan_id : ℕ) (error : String)
    (env : ExecEnv) : ExecutionResult :=
  { plan_id
    success := false
    transaction_signature := none
    execution_time_ms := env.elapsed_ms
    actual_slippage_bps := none
    error_message := some error
    gas_used := none
    timestamp := env.now }

/-- Embedding of `ExecutorHandle::execute_plan` (`src/agent/executor.rs`
lines 172-228): after the semaphore permit (modelled as granted), a plan
whose `expires_at` is strictly before now is rejected with a "Plan expired"
failure; otherwise `execute_swap` is invoked exactly once — the source has
no retry loop.  Returns the emitted result paired with the number of chain
submissions performed. -/
def ExecutorHandle.executePlan (plan : TradingPlan) (env : ExecEnv) :
    ExecutionResult × ℕ :=
  if env.now > plan.expires_at then
    (ExecutorHandle.sendFailureResult plan.id "Plan expired" env, 0)
  else
    match env.chain 0 with
    | .success tx =>
        ({ plan_id := plan.id
           success := true
           transaction_signature := some tx.transaction
           execution_time_ms := env.elapsed_ms
           actual_slippage_bps := none
           error_message := none
           gas_used := some 5000
           timestamp := env.now }, 1)
    | .failure e =>
        ({ plan_id := plan.id
           success := false
           transaction_signature := none
           execution_time_ms := env.elapsed_ms
           actual_slippage_bps := none
           error_message := some e.toMessage
           gas_used := none
           timestamp := env.now }, 1)

/-- Embedding of `ExecutorHandle::update_metrics` (`src/agent/executor.rs`
lines 353-383).  All `u64` arithmetic wraps modulo `2^64`; the running-mean
update divides with `u64` (floor) division. -/
def ExecutorHandle.updateMetrics (metrics : ExecutionMetrics)
    (result : ExecutionResult) : ExecutionMetrics :=
  let total := (metrics.total_executions + 1) % W64
  let successful :=
    if result.success then (metrics.successful_executions + 1) % W64
    else metrics.successful_executions
  let failed :=
    if result.success then metrics.failed_executions
    else (metrics.failed_executions + 1) % W64
  let avg :=
    if total = 1 then result.execution_time_ms
    else ((metrics.avg_execution_time_ms * (total - 1)) % W64 + result.execution_time_ms) % W64 / total
  let gas :=
    match result.gas_used with
    | some g => (metrics.total_gas_used + g) % W64
    | none => metrics.total_gas_used
  { total_executions := total
    successful_executions := successful
    failed_executions := failed
    avg_execution_time_ms := avg
    total_gas_used := gas
    last_execution := some result.timestamp }

/-- Embedding of the retry configuration type (`src/agent/executor.rs` lines
417-422).  The type exists in the source but no executor code path consults
it. -/
structure RetryConfig where
  max_attempts : ℕ
  initial_delay_ms : ℕ
  backoff_multiplier : ℚ
  max_delay_ms : ℕ
deriving DecidableEq

/-- Embedding of `RetryConfig::default` (`src/agent/executor.rs` lines
424-433). -/
def RetryConfig.default : RetryConfig :=
  { max_attempts := 3, initial_delay_ms := 1000, backoff_multiplier := 2, max_delay_ms := 10000 }

/-- The observer's execution-quality bucket (`src/agent/observer.rs` lines
65-71). -/
inductive ExecutionQuality
  | excellent
  | good
  | fair
  | poor
deriving DecidableEq

/-- Embedding of `Observer::assess_execution_quality` (`src/agent/observer.rs`
lines 301-335): failed results are Poor unconditionally; successful results
bucket the mean of a time score and a slippage score. -/
def Observer.assessExecutionQuality (result : ExecutionResult) : ExecutionQuality :=
  if result.success = false then .poor
  else
    let quality_score : ℚ :=
      if result.execution_time_ms < 2000 then 1
      else if result.execution_time_ms < 5000 then 7 / 10
      else 3 / 10
    let slippage_score : ℚ :=
      match result.actual_slippage_bps with
      | some slippage =>
          if slippage < 50 then 1
          else if slippage < 100 then 7 / 10
          else 3 / 10
      | none => 1 / 2
    let combined_score := (quality_score + slippage_score) / 2
    if combined_score ≥ 8 / 10 then .excellent
    else if combined_score ≥ 6 / 10 then .good
    else if combined_score ≥ 4 / 10 then .fair
    else .poor

/-- Embedding of `Observer::generate_parameter_adjustments`
(`src/agent/observer.rs` lines 338-371).  The source's `HashMap` of
adjustments is modelled as the association list in insertion order. -/
def Observer.generateParameterAdjustments (quality : ExecutionQuality) :
    List (String × ℚ) :=
  match quality with
  | .poor =>
      [("priority_fee_percentile", 5), ("max_slippage_bps", 10),
       ("position_size_multiplier", -(1 / 10))]
  | .fair =>
      [("priority_fee_percentile", 2), ("max_slippage_bps", 5)]
  | .good =>
      [("position_size_multiplier", 5 / 100)]
  | .excellent =>
      [("priority_fee_percentile", -1), ("position_size_multiplier", 1 / 10)]

/-- Modelled from the spec: the observer's cumulative performance metrics, with
fields as initialized by `default_performance_metrics` in the source. -/
structure PerformanceMetrics where
  total_trades : ℕ
  successful_trades : ℕ
  total_pnl : ℚ
  win_rate : ℚ
  avg_slippage_bps : ℚ
  avg_execution_time_ms : ℕ
  max_drawdown : ℚ
  sharpe_ratio : ℚ
  last_updated : Int
deriving DecidableEq

/-- Embedding of `Observer::calculate_performance_impact`'s fields
(`src/agent/observer.rs` lines 374-405), evaluated against the (already
updated) performance metrics. -/
structure PerformanceImpact where
  pnl_impact : ℚ
  win_rate_impact : ℚ
  risk_score_change : ℚ
  execution_quality : ExecutionQuality
deriving DecidableEq

/-- Embedding of `Observer::calculate_performance_impact`
(`src/agent/observer.rs` lines 374-405). -/
def Observer.calculatePerformanceImpact (metrics : PerformanceMetrics)
    (result : ExecutionResult) : PerformanceImpact :=
  let pnl_impact : ℚ := if result.success then 100 else -10
  let old_win_rate : ℚ :=
    if metrics.total_trades ≤ 1 then 0
    else ((metrics.successful_trades - (if result.success then 1 else 0) : ℕ) : ℚ) /
      ((metrics.total_trades - 1 : ℕ) : ℚ)
  { pnl_impact
    win_rate_impact := metrics.win_rate - old_win_rate
    risk_score_change := if result.success then -(1 / 100) else 5 / 100
    execution_quality := Observer.assessExecutionQuality result }

/-- The learning feedback record sent to the supervisor
(`src/agent/observer.rs` lines 46-53). -/
structure LearningFeedback where
  strategy_type : StrategyType
  execution_result : ExecutionResult
  position_change : Option Unit
  performance_impact : PerformanceImpact
  suggested_adjustments : List (String × ℚ)
deriving DecidableEq

/-- Embedding of `Observer::generate_learning_feedback`
(`src/agent/observer.rs` lines 277-298), as the feedback value placed on the
feedback channel. -/
def Observer.generateLearningFeedback (metrics : PerformanceMetrics)
    (result : ExecutionResult) : LearningFeedback :=
  let execution_quality := Observer.assessExecutionQuality result
  { strategy_type := .arbitrage
    execution_result := result
    position_change := none
    performance_impact := Observer.calculatePerformanceImpact metrics result
    suggested_adjustments := Observer.generateParameterAdjustments execution_quality }

/-- Modelled from the spec: the learning parameters held in the agent state,
with fields as initialized by `default_learning_parameters` in
`src/agent/trading_agent.rs` lines 437-450. -/
structure LearningParameters where
  learning_rate : ℚ
  adaptation_window_hours : ℕ
  performance_threshold : ℚ
  parameter_bounds : List (String × ℚ × ℚ)
deriving DecidableEq

/-- Modelled from the spec: the mutable agent state, restricted to the fields
`apply_parameter_adjustment` reads and writes plus the bookkeeping flags the
present source files touch. -/
structure AgentState where
  is_active : Bool
  current_positions : List (String × Position)
  strategy_config : StrategyConfig
  learning_parameters : LearningParameters
deriving DecidableEq

/-- Embedding of `TradingAgent::apply_parameter_adjustment`
(`src/agent/trading_agent.rs` lines 279-307): the percentile and slippage
adjustments are clamped to [50, 99] and [10, 500]; the
"position_size_multiplier" adjustment multiplies `position_size_usd` by
`1 + adjustment` and clamps the product to [100, 10000] USD. -/
def TradingAgent.applyParameterAdjustment (state : AgentState)
    (param_name : String) (adjustment : ℚ) : AgentState :=
  if param_name = "priority_fee_percentile" then
    let current : ℚ := (state.strategy_config.execution_settings.priority_fee_percentile : ℚ)
    let new_value := f64AsU8 (ratClamp (current + adjustment) 50 99)
    { state with strategy_config.execution_settings.priority_fee_percentile := new_value }
  else if param_name = "max_slippage_bps" then
    let current : ℚ := (state.strategy_config.parameters.max_slippage_bps : ℚ)
    let new_value := f64AsU16 (ratClamp (current + adjustment) 10 500)
    { state with strategy_config.parameters.max_slippage_bps := new_value }
  else if param_name = "position_size_multiplier" then
    let current := state.strategy_config.parameters.position_size_usd
    let new_value := current * (1 + adjustment)
    { state with strategy_config.parameters.position_size_usd := ratClamp new_value 100 10000 }
  else state

/-- Modelled from the spec: the AI advisor's structured response (spec section
4.4.2), restricted to the fields the planner's augmentation reads. -/
structure AIAnalysisResponse where
  confidence : ℚ
  reasoning : String
  risk_assessment : RiskAssessment
deriving DecidableEq

/-- Embedding of the plan-augmentation step of
`Planner::evaluate_strategies_with_ai_insights` (`src/agent/planner.rs`
lines 225-235): the execution context's reasoning is overwritten with a
string built from the advisor's reasoning, confidence and risk score, and
the plan's confidence is multiplied by the advisor's confidence. -/
def Planner.augmentPlanWithAI (plan : TradingPlan)
    (ai_response : AIAnalysisResponse) : TradingPlan :=
  let plan' :=
    { plan with execution_context.ai_reasoning :=
        ai_response.reasoning ++ " AI confidence: " ++ fmt2 ai_response.confidence ++
          ", Risk score: " ++ fmt2 ai_response.risk_assessment.risk_score }
  { plan' with confidence_score := plan'.confidence_score * ai_response.confidence }

/-! Concrete fixtures used by witnesses and counterexamples.  The quote is
the spec's end-to-end scenario 1 (section 8). -/

/-- Scenario-1 quote: 1.0 USDC in, 1.1 SOL-units out, 50 bps slippage, no
platform fee, no price impact. -/
def sampleQuote : QuoteData :=
  { input_mint := "USDC", output_mint := "SOL", input_amount := 1000000
    output_amount := 1100000, slippage_bps := 50, platform_fee_bps := 0
    price_impact_pct := 0, route_plan := [7, 7], timestamp := 0 }

/-- Benign market conditions (moderate volatility, adequate liquidity). -/
def sampleConditions : MarketConditions :=
  { volatility_24h := 5 / 100, volume_24h := 1000000, price_trend := .sideways
    liquidity_score := 1 / 2 }

/-- The default strategy parameters of the source
(`src/agent/trading_agent.rs` lines 411-417), with the scenario-1 minimum
spread of 500 bps. -/
def sampleParameters : StrategyParameters :=
  { min_spread_bps := 500, max_slippage_bps := 100, position_size_usd := 1000
    rebalance_threshold_pct := 5 / 100, lookback_periods := 24, custom_params := [] }

/-- The default risk limits of the source (`src/agent/trading_agent.rs`
lines 419-425). -/
def sampleRiskLimits : RiskLimits :=
  { max_position_size_usd := 10000, max_daily_loss_pct := 5, max_drawdown_pct := 15
    stop_loss_pct := 3, take_profit_pct := 10 }

/-- The default execution settings of the source (`src/agent/trading_agent.rs`
lines 426-432). -/
def sampleSettings : ExecutionSettings :=
  { priority_fee_percentile := 75, max_priority_fee_lamports := 100000
    transaction_timeout_ms := 30000, retry_attempts := 3, jito_tip_lamports := 10000 }

/-- An arbitrage strategy configuration built from the sample pieces. -/
def sampleConfig : StrategyConfig :=
  { strategy_type := .arbitrage, parameters := sampleParameters
    risk_limits := sampleRiskLimits, execution_settings := sampleSettings }

/-- A fixed evaluation environment. -/
def sampleEnv : PlanEnv := { now := 1700000000000, freshId := 1, rngDraw := 3 }

/-- Auxiliary: the boolean market-conditions check holds exactly when the
volatility is at most 0.15 and the liquidity score at least 0.3. -/
theorem checkMarketConditions_iff (mc : MarketConditions) :
    ArbitrageStrategy.checkMarketConditions mc = true ↔
      mc.volatility_24h ≤ 15 / 100 ∧ 3 / 10 ≤ mc.liquidity_score := by
  unfold ArbitrageStrategy.checkMarketConditions
  split_ifs with h1 h2
  · simp only [Bool.false_eq_true, false_iff]
    rintro ⟨ha, -⟩
    linarith
  · simp only [Bool.false_eq_true, false_iff]
    rintro ⟨-, hb⟩
    linarith
  · simp only [true_iff]
    exact ⟨le_of_not_lt h1, le_of_not_lt h2⟩

/-- Auxiliary: with a maximum priority fee of at least 10 lamports the 10%
jitter is nonzero, so the priority-fee computation avoids its modulo-by-zero
panic and returns a fee. -/
theorem calculatePriorityFee_isSome (settings : ExecutionSettings) (env : PlanEnv)
    (h : 10 ≤ settings.max_priority_fee_lamports) :
    ∃ fee, ArbitrageStrategy.calculatePriorityFee settings env = some fee := by
  have hj : ¬ (f64AsU64 ((settings.max_priority_fee_lamports : ℚ) * (1 / 10)) = 0) := by
    unfold f64AsU64
    have h1 : (1 : ℤ) ≤ ⌊(settings.max_priority_fee_lamports : ℚ) * (1 / 10)⌋ := by
      rw [Int.le_floor]
      have h10 : (10 : ℚ) ≤ (settings.max_priority_fee_lamports : ℚ) := by exact_mod_cast h
      push_cast
      linarith
    have h2 : (1 : ℤ) ≤
        min ((2 : ℤ) ^ 64 - 1) ⌊(settings.max_priority_fee_lamports : ℚ) * (1 / 10)⌋ :=
      le_min (by norm_num) h1
    omega
  simp only [ArbitrageStrategy.calculatePriorityFee]
  rw [if_neg hj]
  exact ⟨_, rfl⟩

/-- C1 (amended): for every quote, market conditions, positions map,
evaluation environment, and config with `min_spread_bps ≥ 10` and
`max_priority_fee_lamports ≥ 10` (below 10 the priority-fee jitter truncates
to zero and plan construction panics on `% 0`), `ArbitrageStrategy::evaluate`
produces a plan exactly when the effective spread (raw spread minus
slippage, platform fee and price-impact bps) reaches `min_spread_bps`, the
volatility is at most 0.15, the liquidity score is at least 0.3, and the
summed position value does not exceed `max_position_size_usd`; in every
other case no plan is produced (the evaluation yields `None` or an error). -/
theorem arbitrage_evaluate_some_iff (quote : QuoteData) (mc : MarketConditions)
    (positions : List (String × Position)) (config : StrategyConfig) (env : PlanEnv)
    (hmin : 10 ≤ config.parameters.min_spread_bps)
    (hfee10 : 10 ≤ config.execution_settings.max_priority_fee_lamports) :
    (∃ plan, ArbitrageStrategy.evaluate quote mc positions config env = .ok (some plan)) ↔
      (config.parameters.min_spread_bps ≤ ArbitrageStrategy.calculateEffectiveSpread quote ∧
        mc.volatility_24h ≤ 15 / 100 ∧
        3 / 10 ≤ mc.liquidity_score ∧
        totalPositionValue positions ≤ config.risk_limits.max_position_size_usd) := by
  simp only [ArbitrageStrategy.evaluate]
  by_cases h1 : ArbitrageStrategy.calculateEffectiveSpread quote < config.parameters.min_spread_bps
  · rw [if_pos h1]
    constructor
    · rintro ⟨p, hp⟩
      simp at hp
    · rintro ⟨hs, -⟩
      omega
  · rw [if_neg h1]
    by_cases h2 : ArbitrageStrategy.checkMarketConditions mc = true
    · rw [if_neg (not_not.mpr h2)]
      by_cases h3 : totalPositionValue positions > config.risk_limits.max_position_size_usd
      · rw [if_pos h3]
        constructor
        · rintro ⟨p, hp⟩
          simp at hp
        · rintro ⟨-, -, -, hpos⟩
          linarith
      · rw [if_neg h3]
        obtain ⟨fee, hfee⟩ := calculatePriorityFee_isSome config.execution_settings env hfee10
        have hplan : ∃ P, ArbitrageStrategy.createTradingPlan quote config
            (ArbitrageStrategy.calculateEffectiveSpread quote) env = some P := by
          unfold ArbitrageStrategy.createTradingPlan
          rw [hfee]
          exact ⟨_, rfl⟩
        obtain ⟨P, hP⟩ := hplan
        refine iff_of_true ⟨P, ?_⟩ ⟨le_of_not_lt h1, ((checkMarketConditions_iff mc).mp h2).1,
          ((checkMarketConditions_iff mc).mp h2).2, le_of_not_gt h3⟩
        rw [hP]
    · rw [if_pos h2]
      constructor
      · rintro ⟨p, hp⟩
        simp at hp
      · rintro ⟨-, hv, hl, -⟩
        exact absurd ((checkMarketConditions_iff mc).mpr ⟨hv, hl⟩) h2

/-- Witness for C1: on the scenario-1 quote (effective spread 950 bps) with
`min_spread_bps = 500` and `max_priority_fee_lamports = 100000`, benign
conditions and no open positions, a plan is produced. -/
theorem arbitrage_evaluate_some_iff_witness :
    10 ≤ sampleConfig.parameters.min_spread_bps ∧
      10 ≤ sampleConfig.execution_settings.max_priority_fee_lamports ∧
      (∃ plan, ArbitrageStrategy.evaluate sampleQuote sampleConditions [] sampleConfig
        sampleEnv = .ok (some plan)) := by
  have hmin : 10 ≤ sampleConfig.parameters.min_spread_bps := by
    norm_num [sampleConfig, sampleParameters]
  have hfee10 : 10 ≤ sampleConfig.execution_settings.max_priority_fee_lamports := by
    norm_num [sampleConfig, sampleSettings]
  refine ⟨hmin, hfee10, (arbitrage_evaluate_some_iff sampleQuote sampleConditions [] sampleConfig
    sampleEnv hmin hfee10).mpr ⟨?_, ?_, ?_, ?_⟩⟩
  · norm_num [ArbitrageStrategy.calculateEffectiveSpread, f64AsU16, sampleQuote,
      sampleConfig, sampleParameters]
    omega
  · norm_num [sampleConditions]
  · norm_num [sampleConditions]
  · norm_num [totalPositionValue, sampleConfig, sampleRiskLimits]

/-- The sample configuration with a zero maximum priority fee: the 10%
jitter `(0 as f64 * 0.1) as u64` is zero, so the source's priority-fee
computation divides by zero. -/
def zeroFeeConfig : StrategyConfig :=
  { sampleConfig with execution_settings.max_priority_fee_lamports := 0 }

/-- Counterexample for C1: at a config with `min_spread_bps = 500` (so at
least 10) but `max_priority_fee_lamports = 0`, all four claimed conditions
hold on the scenario-1 quote, yet the evaluation panics on the `% 0` inside
`calculate_priority_fee` and produces no plan — the claimed "Some exactly
when (1)-(4)" fails at this input. -/
theorem arbitrage_panic_counterexample :
    10 ≤ zeroFeeConfig.parameters.min_spread_bps ∧
    zeroFeeConfig.parameters.min_spread_bps ≤
      ArbitrageStrategy.calculateEffectiveSpread sampleQuote ∧
    sampleConditions.volatility_24h ≤ 15 / 100 ∧
    3 / 10 ≤ sampleConditions.liquidity_score ∧
    totalPositionValue [] ≤ zeroFeeConfig.risk_limits.max_position_size_usd ∧
    ArbitrageStrategy.evaluate sampleQuote sampleConditions [] zeroFeeConfig sampleEnv =
      .panicked ∧
    ¬ ∃ plan, ArbitrageStrategy.evaluate sampleQuote sampleConditions [] zeroFeeConfig
      sampleEnv = .ok (some plan) := by
  have hspread : ArbitrageStrategy.calculateEffectiveSpread sampleQuote = 950 := by
    norm_num [ArbitrageStrategy.calculateEffectiveSpread, f64AsU16, sampleQuote]
    omega
  have hfee0 : ArbitrageStrategy.calculatePriorityFee zeroFeeConfig.execution_settings
      sampleEnv = none := by
    have hj : f64AsU64 ((zeroFeeConfig.execution_settings.max_priority_fee_lamports : ℚ) *
        (1 / 10)) = 0 := by
      norm_num [zeroFeeConfig, sampleConfig, sampleSettings, f64AsU64]
    simp only [ArbitrageStrategy.calculatePriorityFee]
    rw [if_pos hj]
  have hcreate : ArbitrageStrategy.createTradingPlan sampleQuote zeroFeeConfig
      (ArbitrageStrategy.calculateEffectiveSpread sampleQuote) sampleEnv = none := by
    unfold ArbitrageStrategy.createTradingPlan
    rw [hfee0]
  have hcheck : ArbitrageStrategy.checkMarketConditions sampleConditions = true :=
    (checkMarketConditions_iff sampleConditions).mpr
      ⟨by norm_num [sampleConditions], by norm_num [sampleConditions]⟩
  have hn1 : ¬ (ArbitrageStrategy.calculateEffectiveSpread sampleQuote <
      zeroFeeConfig.parameters.min_spread_bps) := by
    rw [hspread]
    norm_num [zeroFeeConfig, sampleConfig, sampleParameters]
  have hn3 : ¬ (totalPositionValue ([] : List (String × Position)) >
      zeroFeeConfig.risk_limits.max_position_size_usd) := by
    norm_num [totalPositionValue, zeroFeeConfig, sampleConfig, sampleRiskLimits]
  have heval : ArbitrageStrategy.evaluate sampleQuote sampleConditions [] zeroFeeConfig
      sampleEnv = .panicked := by
    simp only [ArbitrageStrategy.evaluate]
    rw [if_neg hn1, if_neg (not_not.mpr hcheck), if_neg hn3, hcreate]
  refine ⟨?_, ?_, ?_, ?_, ?_, heval, ?_⟩
  · norm_num [zeroFeeConfig, sampleConfig, sampleParameters]
  · rw [hspread]
    norm_num [zeroFeeConfig, sampleConfig, sampleParameters]
  · norm_num [sampleConditions]
  · norm_num [sampleConditions]
  · norm_num [totalPositionValue, zeroFeeConfig, sampleConfig, sampleRiskLimits]
  · rintro ⟨plan, hplan⟩
    rw [heval] at hplan
    exact absurd hplan (by simp)

/-- A plan expiring at a fixed instant, used by the executor claims. -/
def samplePlan : TradingPlan :=
  { id := 42, strategy_type := .arbitrage, bucket_pubkey := "USDC", input_mint := "USDC"
    output_mint := "SOL", input_amount := 1000000000, min_output_amount := 1100000
    max_slippage_bps := 100, priority_fee := 100000, route_plan := [7, 7]
    confidence_score := 7 / 10, created_at := 1700000000000, expires_at := 1700000030000
    execution_context :=
      { market_conditions := sampleConditions
        risk_assessment :=
          { risk_score := 3 / 10, max_loss_estimate := 95, position_risk_pct := 5
            market_risk_factors := ["slippage", "timing"] }
        ai_reasoning := "Arbitrage opportunity with 950bps spread" } }

/-- A chain client that succeeds on every submission attempt. -/
def chainAlwaysOk : ℕ → ChainOutcome := fun _ => .success { transaction := "base64tx" }

/-- C2 (amended): the executor treats a plan as expired exactly when the
current time is strictly after `expires_at`: for a strictly past deadline it
performs no chain submission and emits a failure result with message
"Plan expired" and no signature, while at `now = expires_at` (or earlier)
the plan is still submitted. -/
theorem executor_expiry_strict (plan : TradingPlan) (env : ExecEnv) :
    (plan.expires_at < env.now →
      (ExecutorHandle.executePlan plan env).2 = 0 ∧
      (ExecutorHandle.executePlan plan env).1.success = false ∧
      (ExecutorHandle.executePlan plan env).1.error_message = some "Plan expired" ∧
      (ExecutorHandle.executePlan plan env).1.transaction_signature = none) ∧
    (env.now ≤ plan.expires_at → (ExecutorHandle.executePlan plan env).2 = 1) := by
  constructor
  · intro h
    unfold ExecutorHandle.executePlan
    rw [if_pos h]
    exact ⟨rfl, rfl, rfl, rfl⟩
  · intro h
    unfold ExecutorHandle.executePlan
    rw [if_neg (not_lt.mpr h)]
    cases env.chain 0 <;> rfl

/-- Witness for C2: a plan one millisecond past its deadline is rejected
without submission, and the same plan exactly at its deadline is submitted. -/
theorem executor_expiry_strict_witness :
    ((ExecutorHandle.executePlan samplePlan
        { now := 1700000030001, elapsed_ms := 5, chain := chainAlwaysOk }).1.error_message =
      some "Plan expired") ∧
    ((ExecutorHandle.executePlan samplePlan
        { now := 1700000030000, elapsed_ms := 5, chain := chainAlwaysOk }).2 = 1) :=
  ⟨(executor_expiry_strict samplePlan
      { now := 1700000030001, elapsed_ms := 5, chain := chainAlwaysOk }).1
      (by norm_num [samplePlan]) |>.2.2.1,
   (executor_expiry_strict samplePlan
      { now := 1700000030000, elapsed_ms := 5, chain := chainAlwaysOk }).2
      (by norm_num [samplePlan])⟩

/-- Counterexample for C2: at the boundary `now = expires_at` the code does
not treat the plan as expired — the submission succeeds and the emitted
result is a success, not the claimed "Plan expired" failure. -/
theorem executor_expiry_boundary_counterexample :
    ¬ ((ExecutorHandle.executePlan samplePlan
          { now := 1700000030000, elapsed_ms := 5, chain := chainAlwaysOk }).1.success = false ∧
        (ExecutorHandle.executePlan samplePlan
          { now := 1700000030000, elapsed_ms := 5, chain := chainAlwaysOk }).1.error_message =
          some "Plan expired") := by
  have hres : (ExecutorHandle.executePlan samplePlan
      { now := 1700000030000, elapsed_ms := 5, chain := chainAlwaysOk }).1.success = true := by
    unfold ExecutorHandle.executePlan
    rw [if_neg (by norm_num [samplePlan])]
    rfl
  rintro ⟨hfail, -⟩
  rw [hres] at hfail
  exact absurd hfail (by simp)

/-- A chain client that times out on the first two submission attempts and
would succeed on the third (the spec's scenario 5). -/
def chainTwoTimeouts : ℕ → ChainOutcome := fun n =>
  if n ≤ 1 then .failure (.transactionFailed "ICM swap failed: request timed out")
  else .success { transaction := "base64tx" }

/-- C3 (code bug): the executor performs no retries at all.  Against a chain
client that times out twice and then succeeds, `execute_plan` submits exactly
once and emits a failed result — while `RetryConfig::default` does carry the
claimed backoff constants (3 attempts, 1 s initial delay, multiplier 2, 10 s
cap), no code path consults it. -/
theorem executor_no_retry_code_bug :
    RetryConfig.default =
      { max_attempts := 3, initial_delay_ms := 1000, backoff_multiplier := 2
        max_delay_ms := 10000 } ∧
    (ExecutorHandle.executePlan samplePlan
      { now := 1700000000000, elapsed_ms := 40, chain := chainTwoTimeouts }).2 = 1 ∧
    (ExecutorHandle.executePlan samplePlan
      { now := 1700000000000, elapsed_ms := 40, chain := chainTwoTimeouts }).1.success = false := by
  refine ⟨rfl, ?_, ?_⟩ <;>
    · unfold ExecutorHandle.executePlan
      rw [if_neg (by norm_num [samplePlan])]
      rfl

/-- A DCA strategy with a one-hour interval, as the spec's scenario 3. -/
def dcaOneHour : DCAStrategy := DCAStrategy.new 1

/-- C4 (code bug): `last_execution` is never written anywhere in the
repository (`evaluate` borrows the strategy immutably and no other code
inserts), so the interval throttle never engages: the first tick emits a
plan and a tick 30 minutes later emits a plan again, where the claim
requires the second tick to emit nothing. -/
theorem dca_emits_every_tick_code_bug :
    (∃ p, dcaOneHour.evaluate sampleQuote sampleConfig
      { now := 1700000000000, freshId := 1, rngDraw := 0 } = .ok (some p)) ∧
    (∃ p, dcaOneHour.evaluate sampleQuote sampleConfig
      { now := 1700001800000, freshId := 2, rngDraw := 0 } = .ok (some p)) :=
  ⟨⟨_, rfl⟩, ⟨_, rfl⟩⟩

/-- Auxiliary: the clamped value lies between its bounds. -/
theorem ratClamp_mem (x lo hi : ℚ) (h : lo ≤ hi) :
    lo ≤ ratClamp x lo hi ∧ ratClamp x lo hi ≤ hi :=
  ⟨le_max_left _ _, max_le h (min_le_left _ _)⟩

/-- Auxiliary: the saturating integer cast of a value clamped into the
natural range `[lo, hi]` with `hi ≤ cap` lands in `[lo, hi]`. -/
theorem toNat_min_floor_ratClamp_mem (x : ℚ) (lo hi : ℕ) (cap : ℤ)
    (h : (lo : ℚ) ≤ (hi : ℚ)) (hcap : (hi : ℤ) ≤ cap) :
    lo ≤ (min cap ⌊ratClamp x lo hi⌋).toNat ∧ (min cap ⌊ratClamp x lo hi⌋).toNat ≤ hi := by
  obtain ⟨h1, h2⟩ := ratClamp_mem x lo hi h
  have hf1 : (lo : ℤ) ≤ ⌊ratClamp x (lo : ℚ) (hi : ℚ)⌋ := by
    rw [Int.le_floor]
    exact_mod_cast h1
  have hf2 : ⌊ratClamp x (lo : ℚ) (hi : ℚ)⌋ ≤ (hi : ℤ) := by
    have := Int.floor_le_floor h2
    simpa using this
  omega

/-- The agent state used by the learning-bounds claims. -/
def sampleAgentState : AgentState :=
  { is_active := true
    current_positions := []
    strategy_config := sampleConfig
    learning_parameters :=
      { learning_rate := 1 / 100, adaptation_window_hours := 24
        performance_threshold := 7 / 10
        parameter_bounds :=
          [("priority_fee_percentile", 50, 99), ("max_slippage_bps", 10, 500),
           ("position_size_multiplier", 1 / 10, 2)] } }

/-- C5 (amended): every applied adjustment leaves the touched parameter
inside the bounds the code enforces — `priority_fee_percentile` in [50, 99]
and `max_slippage_bps` in [10, 500]; the "position_size_multiplier"
adjustment instead scales `position_size_usd` by `1 + adjustment` and clamps
the product into [100, 10000] USD, with no multiplier held to [0.1, 2.0]. -/
theorem apply_adjustment_bounds (state : AgentState) (p : String) (a : ℚ) :
    (p = "priority_fee_percentile" →
      50 ≤ (TradingAgent.applyParameterAdjustment state p a).strategy_config.execution_settings.priority_fee_percentile ∧
      (TradingAgent.applyParameterAdjustment state p a).strategy_config.execution_settings.priority_fee_percentile ≤ 99) ∧
    (p = "max_slippage_bps" →
      10 ≤ (TradingAgent.applyParameterAdjustment state p a).strategy_config.parameters.max_slippage_bps ∧
      (TradingAgent.applyParameterAdjustment state p a).strategy_config.parameters.max_slippage_bps ≤ 500) ∧
    (p = "position_size_multiplier" →
      100 ≤ (TradingAgent.applyParameterAdjustment state p a).strategy_config.parameters.position_size_usd ∧
      (TradingAgent.applyParameterAdjustment state p a).strategy_config.parameters.position_size_usd ≤ 10000) := by
  refine ⟨fun hp => ?_, fun hp => ?_, fun hp => ?_⟩ <;> subst hp
  · unfold TradingAgent.applyParameterAdjustment
    rw [if_pos rfl]
    exact toNat_min_floor_ratClamp_mem _ 50 99 255 (by norm_num) (by norm_num)
  · unfold TradingAgent.applyParameterAdjustment
    rw [if_neg (by decide), if_pos rfl]
    exact toNat_min_floor_ratClamp_mem _ 10 500 65535 (by norm_num) (by norm_num)
  · unfold TradingAgent.applyParameterAdjustment
    rw [if_neg (by decide), if_neg (by decide), if_pos rfl]
    exact ratClamp_mem _ 100 10000 (by norm_num)

/-- Witness for C5: applying a large percentile adjustment lands on the upper
bound 99. -/
theorem apply_adjustment_bounds_witness :
    50 ≤ (TradingAgent.applyParameterAdjustment sampleAgentState "priority_fee_percentile"
        1000).strategy_config.execution_settings.priority_fee_percentile ∧
    (TradingAgent.applyParameterAdjustment sampleAgentState "priority_fee_percentile"
        1000).strategy_config.execution_settings.priority_fee_percentile ≤ 99 :=
  (apply_adjustment_bounds sampleAgentState "priority_fee_percentile" 1000).1 rfl

/-- Counterexample for C5: a "position_size_multiplier" adjustment of `+3.0`
multiplies the position size by 4 — from 1000 to 4000 USD — so the applied
multiplier escapes the declared bound of at most 2.0 (the code clamps the
USD amount to [100, 10000] instead of clamping a multiplier to [0.1, 2.0]). -/
theorem position_multiplier_unbounded_counterexample :
    (TradingAgent.applyParameterAdjustment sampleAgentState "position_size_multiplier"
        3).strategy_config.parameters.position_size_usd = 4000 ∧
    ¬ ((TradingAgent.applyParameterAdjustment sampleAgentState "position_size_multiplier"
        3).strategy_config.parameters.position_size_usd ≤
      2 * sampleAgentState.strategy_config.parameters.position_size_usd) := by
  have h : (TradingAgent.applyParameterAdjustment sampleAgentState "position_size_multiplier"
      3).strategy_config.parameters.position_size_usd = 4000 := by
    unfold TradingAgent.applyParameterAdjustment
    rw [if_neg (by decide), if_neg (by decide), if_pos rfl]
    norm_num [sampleAgentState, sampleConfig, sampleParameters, ratClamp]
  refine ⟨h, ?_⟩
  rw [h]
  norm_num [sampleAgentState, sampleConfig, sampleParameters]

/-- Specification-side scoring of the execution time (spec section 4.6,
feedback derivation), for comparison with the source. -/
def specTimeScore (t : ℕ) : ℚ :=
  if t < 2000 then 1 else if t < 5000 then 7 / 10 else 3 / 10

/-- Specification-side scoring of the observed slippage (spec section 4.6). -/
def specSlipScore : Option ℕ → ℚ
  | some s => if s < 50 then 1 else if s < 100 then 7 / 10 else 3 / 10
  | none => 1 / 2

/-- Specification-side bucketing of the combined score (spec section 4.6). -/
def specQualityBucket (score : ℚ) : ExecutionQuality :=
  if score ≥ 8 / 10 then .excellent
  else if score ≥ 6 / 10 then .good
  else if score ≥ 4 / 10 then .fair
  else .poor

/-- A successful execution result taking `t` milliseconds with observed
slippage `s`. -/
def successResult (t : ℕ) (s : Option ℕ) : ExecutionResult :=
  { plan_id := 9, success := true, transaction_signature := some "base64tx"
    execution_time_ms := t, actual_slippage_bps := s, error_message := none
    gas_used := some 5000, timestamp := 0 }

/-- C6 (amended): for successful results the observer's bucket is the mean of
the claimed time score and slippage score pushed through the claimed
thresholds; on the four results with times 1500, 2500, 6000, 900 ms and
slippages 20, 80, 200, absent the buckets are Excellent, Good, Poor and
Good — the last is Good, not the claimed Excellent, since its mean is
(1.0 + 0.5) / 2 = 0.75 < 0.8. -/
theorem assess_quality_formula :
    (∀ r : ExecutionResult, r.success = true →
      Observer.assessExecutionQuality r =
        specQualityBucket
          ((specTimeScore r.execution_time_ms + specSlipScore r.actual_slippage_bps) / 2)) ∧
    Observer.assessExecutionQuality (successResult 1500 (some 20)) = .excellent ∧
    Observer.assessExecutionQuality (successResult 2500 (some 80)) = .good ∧
    Observer.assessExecutionQuality (successResult 6000 (some 200)) = .poor ∧
    Observer.assessExecutionQuality (successResult 900 none) = .good := by
  have hmain : ∀ r : ExecutionResult, r.success = true →
      Observer.assessExecutionQuality r =
        specQualityBucket
          ((specTimeScore r.execution_time_ms + specSlipScore r.actual_slippage_bps) / 2) := by
    intro r h
    unfold Observer.assessExecutionQuality specQualityBucket specTimeScore specSlipScore
    rw [h]
    rfl
  refine ⟨hmain, ?_, ?_, ?_, ?_⟩ <;>
    · rw [hmain _ rfl]
      norm_num [specQualityBucket, specTimeScore, specSlipScore, successResult]

/-- Witness for C6: the formula instantiated on the 900 ms result with absent
slippage, whose combined score 0.75 buckets as Good. -/
theorem assess_quality_formula_witness :
    (successResult 900 none).success = true ∧
    Observer.assessExecutionQuality (successResult 900 none) =
      specQualityBucket
        ((specTimeScore (successResult 900 none).execution_time_ms +
          specSlipScore (successResult 900 none).actual_slippage_bps) / 2) :=
  ⟨rfl, assess_quality_formula.1 (successResult 900 none) rfl⟩

/-- Counterexample for C6: the claim's fourth expected bucket is wrong — the
900 ms result with absent slippage is assessed Good, not Excellent. -/
theorem assess_900_none_not_excellent :
    Observer.assessExecutionQuality (successResult 900 none) ≠ ExecutionQuality.excellent := by
  have h : Observer.assessExecutionQuality (successResult 900 none) = .good := by
    unfold Observer.assessExecutionQuality successResult
    norm_num
  rw [h]
  exact fun hc => by cases hc

/-- An advisor response with confidence 0.9 and risk score 0.2. -/
def sampleAdvisorResponse : AIAnalysisResponse :=
  { confidence := 9 / 10, reasoning := "Bullish momentum"
    risk_assessment :=
      { risk_score := 2 / 10, max_loss_estimate := 50, position_risk_pct := 5
        market_risk_factors := ["volatility"] } }

/-- C7 (amended): when advisor guidance is present, a produced plan's
confidence is multiplied by the advisor confidence, and the execution
context's reasoning is overwritten with a string built from the advisor's
reasoning, its confidence and its risk score — the strategy-produced
reasoning is not retained. -/
theorem augment_plan_with_ai_spec (plan : TradingPlan) (ai : AIAnalysisResponse) :
    (Planner.augmentPlanWithAI plan ai).confidence_score =
      plan.confidence_score * ai.confidence ∧
    (Planner.augmentPlanWithAI plan ai).execution_context.ai_reasoning =
      ai.reasoning ++ " AI confidence: " ++ fmt2 ai.confidence ++ ", Risk score: " ++
        fmt2 ai.risk_assessment.risk_score :=
  ⟨rfl, rfl⟩

/-- Counterexample for C7: on a plan whose execution context holds the
strategy reasoning "Arbitrage opportunity with 950bps spread", augmentation
with the sample advisor response produces a reasoning string that does not
extend the original — the strategy text is not a prefix of (and is absent
from) the result, so nothing was appended to it. -/
theorem augment_reasoning_not_appended_counterexample :
    ((samplePlan.execution_context.ai_reasoning).data.isPrefixOf
      ((Planner.augmentPlanWithAI samplePlan
        sampleAdvisorResponse).execution_context.ai_reasoning).data) = false := by
  have h : (Planner.augmentPlanWithAI samplePlan
      sampleAdvisorResponse).execution_context.ai_reasoning =
      "Bullish momentum AI confidence: 0.90, Risk score: 0.20" := by
    unfold Planner.augmentPlanWithAI sampleAdvisorResponse fmt2
    norm_num
    rfl
  rw [h]
  have h2 : samplePlan.execution_context.ai_reasoning =
      "Arbitrage opportunity with 950bps spread" := rfl
  rw [h2]
  decide

/-- A strategy configuration carrying the reserved `MeanReversion` tag with
parameters that the arbitrage validator accepts. -/
def meanReversionConfig : StrategyConfig :=
  { strategy_type := .meanReversion, parameters := sampleParameters
    risk_limits := sampleRiskLimits, execution_settings := sampleSettings }

/-- C8 (code bug): `StrategyFactory::create_strategy` silently substitutes an
`ArbitrageStrategy` for the reserved tags `MeanReversion` and
`TrendFollowing` ("Placeholder" in the source), and consequently
`validate_strategy_config` accepts a `MeanReversion` configuration instead
of yielding a configuration error. -/
theorem factory_reserved_tags_code_bug :
    StrategyFactory.createStrategy .meanReversion = .arbitrage ∧
    StrategyFactory.createStrategy .trendFollowing = .arbitrage ∧
    StrategyFactory.validateStrategyConfig meanReversionConfig = .ok () :=
  ⟨rfl, rfl, rfl⟩

/-- A successful execution result with the given execution time and no
recorded gas, used by the metrics claims. -/
def timedResult (t : ℕ) : ExecutionResult :=
  { plan_id := 3, success := true, transaction_signature := some "base64tx"
    execution_time_ms := t, actual_slippage_bps := none, error_message := none
    gas_used := none, timestamp := 0 }

/-- C9 (amended): each metrics update stores the running mean computed in
`u64` integer arithmetic: the new stored mean is the old mean plus the
floor-division `(x − mean) fdiv n`, where `n` counts the executions
including this one (equivalently `(mean·(n−1) + x) / n` in natural floor
division) — not the exact rational recurrence. -/
theorem update_metrics_running_mean (m : ExecutionMetrics) (r : ExecutionResult)
    (hN : m.total_executions + 1 < W64)
    (hx : m.avg_execution_time_ms * m.total_executions + r.execution_time_ms < W64) :
    (((ExecutorHandle.updateMetrics m r).avg_execution_time_ms : ℤ)) =
      (m.avg_execution_time_ms : ℤ) +
        Int.fdiv ((r.execution_time_ms : ℤ) - (m.avg_execution_time_ms : ℤ))
          ((m.total_executions : ℤ) + 1) := by
  have htot : (m.total_executions + 1) % W64 = m.total_executions + 1 :=
    Nat.mod_eq_of_lt hN
  simp only [ExecutorHandle.updateMetrics, htot]
  rcases Nat.eq_zero_or_pos m.total_executions with h0 | hpos
  · rw [h0]
    simp only [Nat.zero_add, if_pos rfl]
    rw [Int.fdiv_eq_ediv _ (by norm_num)]
    simp
  · have hne : ¬ (m.total_executions + 1 = 1) := by omega
    rw [if_neg hne]
    have hmul : m.avg_execution_time_ms * (m.total_executions + 1 - 1) % W64 =
        m.avg_execution_time_ms * m.total_executions := by
      have : m.total_executions + 1 - 1 = m.total_executions := by omega
      rw [this]
      exact Nat.mod_eq_of_lt (by omega)
    rw [hmul, Nat.mod_eq_of_lt hx]
    rw [Int.fdiv_eq_ediv _ (by positivity)]
    push_cast
    have hsplit : ((m.avg_execution_time_ms : ℤ) * m.total_executions + r.execution_time_ms) =
        ((r.execution_time_ms : ℤ) - m.avg_execution_time_ms) +
          (m.avg_execution_time_ms : ℤ) * (m.total_executions + 1) := by
      ring
    rw [hsplit, Int.add_mul_ediv_right _ _ (by positivity)]
    ring

/-- Witness for C9: from fresh metrics, one 5 ms result stores mean 5, which
the floor recurrence also gives. -/
theorem update_metrics_running_mean_witness :
    (((ExecutorHandle.updateMetrics ExecutionMetrics.default (timedResult 5)).avg_execution_time_ms : ℤ)) =
      (ExecutionMetrics.default.avg_execution_time_ms : ℤ) +
        Int.fdiv (((timedResult 5).execution_time_ms : ℤ) -
            (ExecutionMetrics.default.avg_execution_time_ms : ℤ))
          ((ExecutionMetrics.default.total_executions : ℤ) + 1) :=
  update_metrics_running_mean ExecutionMetrics.default (timedResult 5)
    (by norm_num [ExecutionMetrics.default, W64])
    (by norm_num [ExecutionMetrics.default, timedResult, W64])

/-- Counterexample for C9: processing results of 1 ms and then 2 ms stores
the integer mean 1, while the exact recurrence `mean + (x − mean)/n` yields
3/2 — the stored value is not the exact recurrence value. -/
theorem update_metrics_not_exact_counterexample :
    ¬ ((((ExecutorHandle.updateMetrics (ExecutorHandle.updateMetrics ExecutionMetrics.default
            (timedResult 1)) (timedResult 2)).avg_execution_time_ms : ℚ)) =
        (((ExecutorHandle.updateMetrics ExecutionMetrics.default
            (timedResult 1)).avg_execution_time_ms : ℚ)) +
          ((((timedResult 2).execution_time_ms : ℚ)) -
            (((ExecutorHandle.updateMetrics ExecutionMetrics.default
              (timedResult 1)).avg_execution_time_ms : ℚ))) / 2) := by
  have h1 : ExecutorHandle.updateMetrics ExecutionMetrics.default (timedResult 1) =
      { total_executions := 1, successful_executions := 1, failed_executions := 0
        avg_execution_time_ms := 1, total_gas_used := 0, last_execution := some 0 } := by
    simp only [ExecutorHandle.updateMetrics, ExecutionMetrics.default, timedResult]
    norm_num [W64]
  have h2 : (ExecutorHandle.updateMetrics (ExecutorHandle.updateMetrics ExecutionMetrics.default
      (timedResult 1)) (timedResult 2)).avg_execution_time_ms = 1 := by
    rw [h1]
    simp only [ExecutorHandle.updateMetrics, timedResult]
    norm_num [W64]
  rw [h2, h1]
  norm_num [timedResult]

/-- A failed execution result carrying an error message. -/
def failedResult : ExecutionResult :=
  { plan_id := 8, success := false, transaction_signature := none
    execution_time_ms := 1200, actual_slippage_bps := none
    error_message := some "ICM swap failed: request timed out", gas_used := none, timestamp := 0 }

/-- The observer's performance metrics after a few trades, used as the
context of a feedback computation. -/
def samplePerformanceMetrics : PerformanceMetrics :=
  { total_trades := 4, successful_trades := 3, total_pnl := 300, win_rate := 3 / 4
    avg_slippage_bps := 50, avg_execution_time_ms := 2000, max_drawdown := 0
    sharpe_ratio := 0, last_updated := 0 }

/-- C10: every failed execution result is assessed Poor unconditionally (the
time and slippage scores are not consulted), and the learning feedback it
generates carries exactly the Poor adjustment set: `+5.0`
priority_fee_percentile, `+10.0` max_slippage_bps, `−0.10`
position_size_multiplier. -/
theorem failed_result_poor_feedback (metrics : PerformanceMetrics)
    (r : ExecutionResult) (h : r.success = false) :
    Observer.assessExecutionQuality r = .poor ∧
    (Observer.generateLearningFeedback metrics r).suggested_adjustments =
      [("priority_fee_percentile", 5), ("max_slippage_bps", 10),
        ("position_size_multiplier", -(1 / 10))] := by
  have hq : Observer.assessExecutionQuality r = .poor := by
    unfold Observer.assessExecutionQuality
    rw [h]
    rfl
  refine ⟨hq, ?_⟩
  simp only [Observer.generateLearningFeedback, hq]
  rfl

/-- Witness for C10: the concrete failed result is assessed Poor and its
feedback suggests the Poor adjustment set. -/
theorem failed_result_poor_feedback_witness :
    Observer.assessExecutionQuality failedResult = .poor ∧
    (Observer.generateLearningFeedback samplePerformanceMetrics
        failedResult).suggested_adjustments =
      [("priority_fee_percentile", 5), ("max_slippage_bps", 10),
        ("position_size_multiplier", -(1 / 10))] :=
  failed_result_poor_feedback samplePerformanceMetrics failedResult rfl
